import Mathlib

/-!
Verification development for the URI-Dereferencer web application.

The JavaScript source is shallowly embedded in Lean:
* strings are modelled as Lean `String` (a list of Unicode scalar values);
  JavaScript string primitives (`startsWith`, `substring`, `decodeURIComponent`,
  regular-expression matching) are modelled as explicit char-list functions.
  JavaScript strings are UTF-16 code-unit sequences; for the URI/WKT data
  handled here (no lone surrogates) the two views agree.
* numbers that the code obtains from `parseInt` on a digit run are modelled
  as `Nat`; WKT coordinate numbers are modelled as `Rat` (the code performs
  no arithmetic on them before the projection step, which is external).
* fallible operations return `Option`/`Except`; thrown JS exceptions are
  modelled as the `none`/`.error` cases.
* external collaborators (the fetch transport, the N3.js parser, the
  betterknown WKT parser, the proj4 transform) are modelled as explicit
  parameters or, where the claims need their behaviour, definitions marked
  `Modelled from the spec:`.
-/

/- ### JavaScript string primitives -/

/-- Model of JavaScript `s.startsWith(p)`: `p` is a literal prefix of `s`. -/
def strStartsWith (s p : String) : Bool :=
  p.data.isPrefixOf s.data

/-- Model of JavaScript `s.substring(n)`: drop the first `n` code units. -/
def strDrop (s : String) (n : Nat) : String :=
  ⟨s.data.drop n⟩

/-- Hexadecimal digit value, as accepted by percent-escapes; computed on the
code point (48-57 are the digits, 65-70 and 97-102 the hex letters). -/
def hexDigitVal (c : Char) : Option Nat :=
  let k := c.toNat
  if 48 ≤ k ∧ k ≤ 57 then some (k - 48)
  else if 65 ≤ k ∧ k ≤ 70 then some (k - 55)
  else if 97 ≤ k ∧ k ≤ 102 then some (k - 87)
  else none

/-- UTF-8 encoding of one Unicode scalar value, as a list of byte values. -/
def utf8EncodeChar (c : Char) : List Nat :=
  let n := c.toNat
  if n < 0x80 then [n]
  else if n < 0x800 then [0xC0 + n / 64, 0x80 + n % 64]
  else if n < 0x10000 then
    [0xE0 + n / 4096, 0x80 + (n / 64) % 64, 0x80 + n % 64]
  else
    [0xF0 + n / 262144, 0x80 + (n / 4096) % 64, 0x80 + (n / 64) % 64, 0x80 + n % 64]

/-- Byte sequence denoted by a percent-escaped character sequence: each
`%hh` contributes the escaped byte, every other character contributes its
UTF-8 bytes.  Fails (as `decodeURIComponent` throws) on a malformed escape. -/
def percentBytes : List Char → Option (List Nat)
  | [] => some []
  | '%' :: c1 :: c2 :: rest =>
    match hexDigitVal c1, hexDigitVal c2, percentBytes rest with
    | some h1, some h2, some bs => some ((16 * h1 + h2) :: bs)
    | _, _, _ => none
  | '%' :: _ => none
  | c :: rest =>
    match percentBytes rest with
    | some bs => some (utf8EncodeChar c ++ bs)
    | none => none

/-- Whether a byte is a UTF-8 continuation byte. -/
def isContByte (b : Nat) : Bool :=
  0x80 ≤ b ∧ b ≤ 0xBF

/-- Strict UTF-8 decoding of a byte sequence (rejecting overlong forms and
surrogate code points), as `decodeURIComponent` requires of escaped bytes. -/
def utf8Decode : List Nat → Option (List Char)
  | [] => some []
  | b :: rest =>
    if b < 0x80 then
      match utf8Decode rest with
      | some cs => some (Char.ofNat b :: cs)
      | none => none
    else if 0xC2 ≤ b ∧ b ≤ 0xDF then
      match rest with
      | b1 :: rest2 =>
        if isContByte b1 then
          match utf8Decode rest2 with
          | some cs => some (Char.ofNat ((b - 0xC0) * 64 + (b1 - 0x80)) :: cs)
          | none => none
        else none
      | _ => none
    else if 0xE0 ≤ b ∧ b ≤ 0xEF then
      match rest with
      | b1 :: b2 :: rest2 =>
        let n := (b - 0xE0) * 4096 + (b1 - 0x80) * 64 + (b2 - 0x80)
        if isContByte b1 ∧ isContByte b2 ∧ 0x800 ≤ n ∧ ¬(0xD800 ≤ n ∧ n ≤ 0xDFFF) then
          match utf8Decode rest2 with
          | some cs => some (Char.ofNat n :: cs)
          | none => none
        else none
      | _ => none
    else if 0xF0 ≤ b ∧ b ≤ 0xF4 then
      match rest with
      | b1 :: b2 :: b3 :: rest2 =>
        let n := (b - 0xF0) * 262144 + (b1 - 0x80) * 4096 + (b2 - 0x80) * 64 + (b3 - 0x80)
        if isContByte b1 ∧ isContByte b2 ∧ isContByte b3 ∧ 0x10000 ≤ n ∧ n ≤ 0x10FFFF then
          match utf8Decode rest2 with
          | some cs => some (Char.ofNat n :: cs)
          | none => none
        else none
      | _ => none
    else none

/-- Model of the JavaScript builtin `decodeURIComponent`: percent-escapes are
decoded to bytes which must form valid UTF-8 together with the bytes of the
unescaped characters; a malformed escape or invalid byte sequence throws
(modelled as `none`). -/
def decodeURIComponent (s : String) : Option String :=
  match percentBytes s.data with
  | none => none
  | some bs =>
    match utf8Decode bs with
    | none => none
    | some cs => some ⟨cs⟩

/- ### URI Resolver (`extractURIFromPath`, dereferencer part_002 lines 77-96) -/

/-- Outcome of `extractURIFromPath`: `noURISupplied` models the `null`
return (empty path), `resolved` a returned URI string, `decodeError` the
exception that `decodeURIComponent` throws on a malformed escape. -/
inductive ResolveResult where
  | noURISupplied : ResolveResult
  | resolved : String → ResolveResult
  | decodeError : ResolveResult
deriving DecidableEq, Repr

/-- Embedding of `URIDereferencer.extractURIFromPath`.  `baseURI` models
`CONFIG.BASE_URI` (the page origin) and `path` models
`window.location.pathname`. -/
def extractURIFromPath (baseURI path : String) : ResolveResult :=
  let uri := strDrop path 1
  if uri = "" ∨ uri = "/" then .noURISupplied
  else if strStartsWith uri "http://" ∨ strStartsWith uri "https://" then
    match decodeURIComponent uri with
    | some s => .resolved s
    | none => .decodeError
  else .resolved (baseURI ++ "/" ++ uri)

/- ### Local-link predicate (`makeLocalLink`, part_002 lines 166-174) -/

/-- Embedding of `URIDereferencer.makeLocalLink`.  `entityNS` models
`CONFIG.ENTITY_NS`, `origin` models `window.location.origin`; `none` models
the `null` return for URIs outside the entity namespace. -/
def makeLocalLink (entityNS origin uri : String) : Option String :=
  if ¬ strStartsWith uri entityNS then none
  else if origin = entityNS then
    some (if strDrop uri entityNS.length = "" then "/" else strDrop uri entityNS.length)
  else some ("/" ++ uri)

/- ### Prefix shortener (`shortenURI`, part_002 lines 402-409) -/

/-- Embedding of `URIDereferencer.shortenURI`.  The prefix map is the
`Object.entries` view of `PREFIXES`: a list of (namespace, prefix) pairs in
key order; the first namespace that is a literal string-prefix of the URI
wins, otherwise the URI is returned unchanged. -/
def shortenURI (prefixMap : List (String × String)) (uri : String) : String :=
  match prefixMap.find? (fun e => strStartsWith uri e.1) with
  | some e => e.2 ++ ":" ++ strDrop uri e.1.length
  | none => uri

/- ### RDF triple model (part_002) -/

/-- RDF term as delivered by N3.js: a term kind tag (`NamedNode`,
`BlankNode`, `Literal`) and its string value.  Language tag and datatype
exist on literals but are not consulted by the operations verified here. -/
structure RDFTerm where
  termType : String
  value : String
deriving DecidableEq, Repr

/-- RDF triple (quad with default graph) as produced by `N3.Parser.parse`. -/
structure Triple where
  subject : RDFTerm
  predicate : RDFTerm
  object : RDFTerm
deriving DecidableEq, Repr

/-- Namespace constant `NS.RDF` of the dereferencer. -/
def NS_RDF : String := "http://www.w3.org/1999/02/22-rdf-syntax-ns#"

/-- Namespace constant `NS.GSP` of the dereferencer. -/
def NS_GSP : String := "http://www.opengis.net/ont/geosparql#"

/-- Embedding of the `rdf:type` extraction in `URIDereferencer.parseResource`:
objects of all triples whose predicate is `rdf:type`, in source order. -/
def typesOf (triples : List Triple) : List String :=
  (triples.filter (fun t => t.predicate.value == NS_RDF ++ "type")).map
    (fun t => t.object.value)

/-- Embedding of the `gsp:hasGeometry` extraction in
`URIDereferencer.parseResource`: the object value of the first matching
triple, or `none` (the field stays `null`) when there is none. -/
def geometryNodeOf (triples : List Triple) : Option String :=
  match triples.filter (fun t => t.predicate.value == NS_GSP ++ "hasGeometry") with
  | [] => none
  | t :: _ => some t.object.value

/-- First-occurrence deduplication with an accumulator of already-seen
keys. -/
def dedupAux (seen : List String) : List String → List String
  | [] => []
  | x :: xs => if x ∈ seen then dedupAux seen xs else x :: dedupAux (x :: seen) xs

/-- First-occurrence deduplication of a string list; models the key set of
the plain-object accumulator `grouped` in `renderProperties` (URI-shaped
keys of a JS object sit in insertion order). -/
def dedupKeepFirst (l : List String) : List String :=
  dedupAux [] l

/-- Embedding of the grouping phase of `URIDereferencer.renderProperties`:
triples whose subject value equals the current resource URI are grouped by
predicate value (values keep source order), and the predicate keys are
rendered in sorted order (`Object.keys(grouped).sort()`; the JS default
sort is lexicographic string comparison). -/
def groupBySubject (triples : List Triple) (subjectURI : String) :
    List (String × List RDFTerm) :=
  let matching := triples.filter (fun t => t.subject.value == subjectURI)
  let preds := dedupKeepFirst (matching.map (fun t => t.predicate.value))
  (preds.insertionSort (· ≤ ·)).map
    (fun p => (p, (matching.filter (fun t => t.predicate.value == p)).map
      (fun t => t.object)))

/- ### Query orchestration (part_002 lines 195-261, 414-500) -/

/-- HTTP response as observed by the dereferencer through `fetch`. -/
structure HTTPResponse where
  ok : Bool
  statusText : String
  body : String

/-- Outcome of one best-effort asynchronous step (a `fetch` plus response
decoding): either the decoded value or a thrown error. -/
inductive FetchOutcome (α : Type) where
  | success : α → FetchOutcome α
  | failure : String → FetchOutcome α

/-- Rendered page state after `loadResource` finishes: the error box
content, whether the property table was rendered, and whether the two
best-effort sections (map, see-also) were shown. -/
structure PageState where
  errorMessage : Option String
  propertiesRendered : Bool
  mapShown : Bool
  seeAlsoShown : Bool
deriving DecidableEq, Repr

/-- Embedding of `URIDereferencer.executeSPARQLQuery`: a non-ok response
throws `SPARQL query failed: <statusText>`; otherwise the body is handed to
the N3.js parser (external, passed as `parse`; its thrown parse errors are
the `.error` case). -/
def executeSPARQLQuery (parse : String → Except String (List Triple))
    (resp : HTTPResponse) : Except String (List Triple) :=
  if resp.ok then parse resp.body
  else .error ("SPARQL query failed: " ++ resp.statusText)

/-- Embedding of `URIDereferencer.checkForGeometry`: with no geometry node
the step is skipped; otherwise the WKT `SELECT` query runs and any thrown
error is caught and swallowed (map section absent); on success the map
section is shown iff the bindings list is non-empty. -/
def checkForGeometry (geometryNode : Option String)
    (wktFetch : FetchOutcome (List String)) : Bool :=
  match geometryNode with
  | none => false
  | some _ =>
    match wktFetch with
    | .failure _ => false
    | .success bindings => ¬ bindings.isEmpty

/-- Embedding of `URIDereferencer.loadSameClassResources`: with no types
the step is skipped; otherwise the same-class `SELECT` query runs and any
thrown error is caught and swallowed (see-also section absent); on success
the section is shown iff the resource list is non-empty. -/
def loadSameClassResources (types : List String)
    (relatedFetch : FetchOutcome (List String)) : Bool :=
  match types with
  | [] => false
  | _ :: _ =>
    match relatedFetch with
    | .failure _ => false
    | .success resources => ¬ resources.isEmpty

/-- Embedding of `URIDereferencer.loadResource`: the `DESCRIBE` query is
executed; a thrown transport/parse error is caught and shown as
`Failed to load resource: <message>`; a zero-triple result shows
`No data found for resource: <uri>` and stops; otherwise the property
table is rendered and the two best-effort steps run with their errors
swallowed. -/
def loadResource (resourceURI : String)
    (parse : String → Except String (List Triple)) (resp : HTTPResponse)
    (wktFetch relatedFetch : FetchOutcome (List String)) : PageState :=
  match executeSPARQLQuery parse resp with
  | .error e =>
    { errorMessage := some ("Failed to load resource: " ++ e),
      propertiesRendered := false, mapShown := false, seeAlsoShown := false }
  | .ok [] =>
    { errorMessage := some ("No data found for resource: " ++ resourceURI),
      propertiesRendered := false, mapShown := false, seeAlsoShown := false }
  | .ok (t :: ts) =>
    { errorMessage := none,
      propertiesRendered := true,
      mapShown := checkForGeometry (geometryNodeOf (t :: ts)) wktFetch,
      seeAlsoShown := loadSameClassResources (typesOf (t :: ts)) relatedFetch }

/- ### Geometry pipeline (map-viewer.js) -/

/-- GeoJSON coordinate tree: a position (array of numbers) or a nested
array of coordinate trees, as produced by the WKT parser and walked by
`transformGeoJSON` (`typeof coords[0] === 'number'` distinguishes the
position case). -/
inductive CoordTree where
  | pt : List Rat → CoordTree
  | arr : List CoordTree → CoordTree
deriving Repr

/-- GeoJSON geometry object: either a geometry with a `type` tag and a
`coordinates` tree, or a `GeometryCollection`, which carries a
`geometries` array and no `coordinates` field. -/
inductive GeoObj where
  | geometry : String → CoordTree → GeoObj
  | geometryCollection : List GeoObj → GeoObj
deriving Repr

/-- Shape of a coordinate tree: the tree with the numbers erased, used to
state that the transform preserves nesting exactly. -/
inductive CoordShape where
  | pt : CoordShape
  | arr : List CoordShape → CoordShape
deriving Repr

/-- JavaScript `\s` whitespace characters (the rare exotic Unicode space
characters are omitted; they occur in no URI or WKT literal here). -/
def wsChar (c : Char) : Bool :=
  c == ' ' || c == '\t' || c == '\n' || c == '\r' || c == '\x0b' || c == '\x0c' ||
    c == ' '

/-- JavaScript regular-expression line terminators, which `.` never
matches. -/
def lineTermChar (c : Char) : Bool :=
  c == '\n' || c == '\r' || c == ' ' || c == ' '

/-- Model of JavaScript `String.prototype.trim` on both ends. -/
def jsTrim (s : String) : String :=
  ⟨((s.data.dropWhile (fun c => wsChar c || lineTermChar c)).reverse.dropWhile
    (fun c => wsChar c || lineTermChar c)).reverse⟩

/-- Case-insensitive literal match: strips `pat` from the front of `cs`
(as a regex literal under the `i` flag does) and returns the remainder. -/
def stripCI : List Char → List Char → Option (List Char)
  | [], cs => some cs
  | _ :: _, [] => none
  | p :: ps, c :: cs => if c.toLower == p.toLower then stripCI ps cs else none

/-- Numeric value of a digit run. -/
def digitsToNat (ds : List Char) : Nat :=
  ds.foldl (fun a c => a * 10 + (c.toNat - '0'.toNat)) 0

/-- Whether a character list contains no regex line terminator, i.e. is
matchable by `(.+)$` when non-empty. -/
def noLineTerm (cs : List Char) : Bool :=
  cs.all (fun c => ¬ lineTermChar c)

/-- Embedding of the EWKT detection regex `^SRID=(\d+);(.+)$` (flag `i`)
of `parseWKT`: on a match, the captured SRID digits and the remainder. -/
def matchEWKT (s : String) : Option (Nat × String) :=
  match stripCI "SRID=".data s.data with
  | none => none
  | some cs =>
    let ds := cs.takeWhile Char.isDigit
    let rest := cs.dropWhile Char.isDigit
    if ds.isEmpty then none
    else
      match rest with
      | ';' :: tail =>
        if ¬ tail.isEmpty ∧ noLineTerm tail then some (digitsToNat ds, ⟨tail⟩)
        else none
      | _ => none

/-- Backtracking for the `\s+(.+)$` tail of the OGC CRS regex: the
whitespace group is greedy, shrinking until the `(.+)` capture is non-empty
and free of line terminators; `none` when no split matches. -/
def ogcTailFrom (t : List Char) : Nat → Option (List Char)
  | 0 => none
  | j + 1 =>
    let r := t.drop (j + 1)
    if ¬ r.isEmpty ∧ noLineTerm r then some r else ogcTailFrom t j

/-- Captured geometry text of the `\s+(.+)$` tail of the OGC CRS regex. -/
def ogcTail (t : List Char) : Option (List Char) :=
  ogcTailFrom t (t.takeWhile wsChar).length

/-- Embedding of the OGC CRS-URI detection regex
`^<http://www.opengis.net/def/crs/EPSG/0/(\d+)>\s+(.+)$` (flag `i`) of
`parseWKT`. -/
def matchOGC (s : String) : Option (Nat × String) :=
  match stripCI "<http://www.opengis.net/def/crs/EPSG/0/".data s.data with
  | none => none
  | some cs =>
    let ds := cs.takeWhile Char.isDigit
    let rest := cs.dropWhile Char.isDigit
    if ds.isEmpty then none
    else
      match rest with
      | '>' :: tail =>
        match ogcTail tail with
        | some r => some (digitsToNat ds, ⟨r⟩)
        | none => none
      | _ => none

/-- Leading whitespace removal inside WKT text. -/
def skipWs (cs : List Char) : List Char :=
  cs.dropWhile wsChar

/-- Parse a decimal number (optional sign, digits, optional fraction) into
an exact rational; coordinate numbers undergo no arithmetic before the
external projection step, so `Rat` is a faithful carrier. -/
def parseNumber (cs : List Char) : Option (Rat × List Char) :=
  let signed : Bool × List Char :=
    match cs with
    | '-' :: r => (true, r)
    | '+' :: r => (false, r)
    | _ => (false, cs)
  let ip := signed.2.takeWhile Char.isDigit
  let cs2 := signed.2.dropWhile Char.isDigit
  if ip.isEmpty then none
  else
    let intval : Rat := (digitsToNat ip : Nat)
    match cs2 with
    | '.' :: cs3 =>
      let fp := cs3.takeWhile Char.isDigit
      let cs4 := cs3.dropWhile Char.isDigit
      if fp.isEmpty then none
      else
        let v : Rat := intval + (digitsToNat fp : Nat) / ((10 : Rat) ^ fp.length)
        some (if signed.1 then -v else v, cs4)
    | _ => some (if signed.1 then -intval else intval, cs2)

/-- Parse a run of whitespace-separated numbers (a WKT position). -/
def parseNumList (fuel : Nat) (cs : List Char) : List Rat × List Char :=
  match fuel with
  | 0 => ([], cs)
  | fuel + 1 =>
    match parseNumber (skipWs cs) with
    | none => ([], cs)
    | some (x, cs1) =>
      let rec2 := parseNumList fuel cs1
      (x :: rec2.1, rec2.2)

/-- Parse one WKT position into a coordinate leaf. -/
def parsePos (fuel : Nat) (cs : List Char) : Option (CoordTree × List Char) :=
  match parseNumList fuel cs with
  | ([], _) => none
  | (x :: xs, cs1) => some (.pt (x :: xs), cs1)

/-- Parse a comma-separated list with the given element parser. -/
def sepByComma (fuel : Nat) (p : List Char → Option (α × List Char))
    (cs : List Char) : Option (List α × List Char) :=
  match fuel with
  | 0 => none
  | fuel + 1 =>
    match p (skipWs cs) with
    | none => none
    | some (a, cs1) =>
      match skipWs cs1 with
      | ',' :: cs3 =>
        match sepByComma fuel p cs3 with
        | some (as, cs4) => some (a :: as, cs4)
        | none => none
      | cs2 => some ([a], cs2)

/-- Parse a parenthesised comma-separated group. -/
def parenGroup (fuel : Nat) (p : List Char → Option (α × List Char))
    (cs : List Char) : Option (List α × List Char) :=
  match skipWs cs with
  | '(' :: cs1 =>
    match sepByComma fuel p cs1 with
    | some (as, cs2) =>
      match skipWs cs2 with
      | ')' :: cs3 => some (as, cs3)
      | _ => none
    | none => none
  | _ => none

/-- Parse a WKT ring / line body `( pos, pos, ... )` into a nested array. -/
def parseRing (fuel : Nat) (cs : List Char) : Option (CoordTree × List Char) :=
  match parenGroup fuel (parsePos fuel) cs with
  | some (ps, cs1) => some (.arr ps, cs1)
  | none => none

/-- Parse a MULTIPOINT element: a position, parenthesised or bare. -/
def parsePosMaybeParen (fuel : Nat) (cs : List Char) :
    Option (CoordTree × List Char) :=
  match skipWs cs with
  | '(' :: cs1 =>
    match parsePos fuel cs1 with
    | some (p, cs2) =>
      match skipWs cs2 with
      | ')' :: cs3 => some (p, cs3)
      | _ => none
    | none => none
  | cs1 => parsePos fuel cs1

/-- Parse a MULTIPOLYGON element: a parenthesised list of rings. -/
def parsePolyBody (fuel : Nat) (cs : List Char) : Option (CoordTree × List Char) :=
  match parenGroup fuel (parseRing fuel) cs with
  | some (rs, cs1) => some (.arr rs, cs1)
  | none => none

/-- Modelled from the spec: the external WKT parser (`wktToGeoJSON` from the
betterknown library, not part of this repository).  Per section 4.4 the
remaining geometry text is parsed by a standard WKT grammar (POINT,
LINESTRING, POLYGON and their MULTI / GEOMETRYCOLLECTION forms) into a
coordinate-tree structure tagged with its geometry type. -/
def parseGeometry (fuel : Nat) (cs0 : List Char) : Option (GeoObj × List Char) :=
  match fuel with
  | 0 => none
  | fuel + 1 =>
    let cs := skipWs cs0
    match stripCI "POINT".data cs with
    | some cs1 =>
      match parenGroup fuel (parsePos fuel) cs1 with
      | some ([p], cs2) => some (.geometry "Point" p, cs2)
      | _ => none
    | none =>
    match stripCI "LINESTRING".data cs with
    | some cs1 =>
      match parseRing fuel cs1 with
      | some (r, cs2) => some (.geometry "LineString" r, cs2)
      | none => none
    | none =>
    match stripCI "POLYGON".data cs with
    | some cs1 =>
      match parenGroup fuel (parseRing fuel) cs1 with
      | some (rs, cs2) => some (.geometry "Polygon" (.arr rs), cs2)
      | none => none
    | none =>
    match stripCI "MULTIPOINT".data cs with
    | some cs1 =>
      match parenGroup fuel (parsePosMaybeParen fuel) cs1 with
      | some (ps, cs2) => some (.geometry "MultiPoint" (.arr ps), cs2)
      | none => none
    | none =>
    match stripCI "MULTILINESTRING".data cs with
    | some cs1 =>
      match parenGroup fuel (parseRing fuel) cs1 with
      | some (rs, cs2) => some (.geometry "MultiLineString" (.arr rs), cs2)
      | none => none
    | none =>
    match stripCI "MULTIPOLYGON".data cs with
    | some cs1 =>
      match parenGroup fuel (parsePolyBody fuel) cs1 with
      | some (ps, cs2) => some (.geometry "MultiPolygon" (.arr ps), cs2)
      | none => none
    | none =>
    match stripCI "GEOMETRYCOLLECTION".data cs with
    | some cs1 =>
      match parenGroup fuel (fun c => parseGeometry fuel c) cs1 with
      | some (gs, cs2) => some (.geometryCollection gs, cs2)
      | none => none
    | none => none

/-- Modelled from the spec: entry point of the external WKT parser; the
whole literal must be consumed up to trailing whitespace. -/
def wktToGeoJSON (wkt : String) : Option GeoObj :=
  match parseGeometry (wkt.length + 1) wkt.data with
  | some (g, rest) => if (skipWs rest).isEmpty then some g else none
  | none => none

/-- Embedding of `parseWKT` (map-viewer.js lines 64-86): trim, then the
EWKT regex (capturing SRID and remainder), then the OGC CRS regex on the
current remainder (overwriting SRID when it also matches), then the WKT
grammar on what is left. -/
def parseWKT (wktLiteral : String) : Option GeoObj × Option Nat :=
  let wkt0 := jsTrim wktLiteral
  let step1 : Option Nat × String :=
    match matchEWKT wkt0 with
    | some (n, r) => (some n, r)
    | none => (none, wkt0)
  let step2 : Option Nat × String :=
    match matchOGC step1.2 with
    | some (n, r) => (some n, r)
    | none => step1
  (wktToGeoJSON step2.2, step2.1)

/-- Embedding of the transform recursion `transformCoords` inside
`transformGeoJSON`: a position (`typeof coords[0] === 'number'`) is passed
to the projection, a nested array is mapped element-wise.  The projection
`proj4(from, to).forward` is external and abstracted as `f`. -/
def transformCoords (f : List Rat → List Rat) : CoordTree → CoordTree
  | .pt c => .pt (f c)
  | .arr l => .arr (l.attach.map (fun x => transformCoords f x.1))
termination_by t => sizeOf t
decreasing_by
  have := List.sizeOf_lt_of_mem x.2
  simp only [CoordTree.arr.sizeOf_spec]
  omega

/-- Embedding of `transformGeoJSON` (map-viewer.js lines 132-150): a null
geometry or one without a `coordinates` field (a `GeometryCollection`
carries `geometries` instead) is returned untouched; otherwise the
coordinate tree is rewritten in place. -/
def transformGeoJSON (f : List Rat → List Rat) : Option GeoObj → Option GeoObj
  | none => none
  | some (.geometryCollection gs) => some (.geometryCollection gs)
  | some (.geometry ty c) => some (.geometry ty (transformCoords f c))

/-- SRIDs of the built-in `commonProjections` table of
`transformCoordinates`. -/
def commonProjectionSRIDs : List Nat := [4326, 3857, 31370, 4258, 3035, 25832, 25833]

/-- Embedding of `transformCoordinates` restricted to its synchronous
behaviour: a built-in SRID is transformed at once (the projection for that
SRID is `f srid`); an unknown SRID triggers an asynchronous epsg.io fetch
and the function returns with the geometry still untransformed. -/
def transformCoordinates (f : Nat → List Rat → List Rat) (g : Option GeoObj)
    (sourceSRID : Nat) : Option GeoObj :=
  if sourceSRID ∈ commonProjectionSRIDs then transformGeoJSON (f sourceSRID) g
  else g

/-- Embedding of the condition `srid && srid !== 4326` of `initializeMap`
(map-viewer.js lines 39-42); a JavaScript number is falsy at `0`. -/
def shouldTransform (srid : Option Nat) : Bool :=
  match srid with
  | none => false
  | some n => ¬(n == 0) && ¬(n == 4326)

/-- Embedding of the geometry portion of `initializeMap`: parse the WKT
literal, bail out on parse failure, transform when `srid && srid !== 4326`,
and hand the resulting geometry to the map layer. -/
def initializeMapGeometry (f : Nat → List Rat → List Rat)
    (wktLiteral : String) : Option GeoObj :=
  match parseWKT wktLiteral with
  | (none, _) => none
  | (some g, srid) =>
    if shouldTransform srid then
      match srid with
      | some n => transformCoordinates f (some g) n
      | none => some g
    else some g

/-- Numbers of a coordinate tree, leaf positions in tree order. -/
def leavesOf : CoordTree → List (List Rat)
  | .pt c => [c]
  | .arr l => (l.attach.map (fun x => leavesOf x.1)).flatten
termination_by t => sizeOf t
decreasing_by
  have := List.sizeOf_lt_of_mem x.2
  simp only [CoordTree.arr.sizeOf_spec]
  omega

/-- Shape (nesting structure) of a coordinate tree. -/
def shapeOf : CoordTree → CoordShape
  | .pt _ => .pt
  | .arr l => .arr (l.attach.map (fun x => shapeOf x.1))
termination_by t => sizeOf t
decreasing_by
  have := List.sizeOf_lt_of_mem x.2
  simp only [CoordTree.arr.sizeOf_spec]
  omega

/- ### Helper lemmas -/

/-- Dropping the length of the left part of an appended string yields the
right part. -/
theorem strDrop_append (a b : String) : strDrop (a ++ b) a.length = b := by
  show String.mk ((a ++ b).data.drop a.length) = b
  rw [String.data_append]
  have : a.length = a.data.length := rfl
  rw [this, List.drop_left]

/-- A string starts with an explicit prefix of itself. -/
theorem strStartsWith_append (a b : String) : strStartsWith (a ++ b) a = true := by
  show (a.data.isPrefixOf (a ++ b).data) = true
  rw [String.data_append, List.isPrefixOf_iff_prefix]
  exact List.prefix_append a.data b.data

/-- Membership in the deduplication accumulator recursion. -/
theorem mem_dedupAux (a : String) :
    ∀ (l seen : List String), a ∈ dedupAux seen l ↔ a ∈ l ∧ a ∉ seen := by
  intro l
  induction l with
  | nil => intro seen; simp [dedupAux]
  | cons x xs ih =>
    intro seen
    by_cases hx : x ∈ seen
    · rw [dedupAux, if_pos hx, ih]
      simp only [List.mem_cons]
      constructor
      · rintro ⟨h1, h2⟩
        exact ⟨Or.inr h1, h2⟩
      · rintro ⟨h1 | h1, h2⟩
        · exact absurd (h1 ▸ hx) h2
        · exact ⟨h1, h2⟩
    · rw [dedupAux, if_neg hx]
      rw [List.mem_cons, ih]
      simp only [List.mem_cons]
      constructor
      · rintro (rfl | ⟨h1, h2⟩)
        · exact ⟨Or.inl rfl, hx⟩
        · exact ⟨Or.inr h1, fun hs => h2 (Or.inr hs)⟩
      · rintro ⟨rfl | h1, h2⟩
        · exact Or.inl rfl
        · by_cases hax : a = x
          · exact Or.inl hax
          · exact Or.inr ⟨h1, fun hs => hs.elim hax h2⟩

/-- Membership is invariant under first-occurrence deduplication. -/
theorem mem_dedupKeepFirst (a : String) (l : List String) :
    a ∈ dedupKeepFirst l ↔ a ∈ l := by
  rw [dedupKeepFirst, mem_dedupAux]
  simp

/-- The deduplication accumulator recursion produces no duplicates. -/
theorem nodup_dedupAux : ∀ (l seen : List String), (dedupAux seen l).Nodup := by
  intro l
  induction l with
  | nil => intro seen; simp [dedupAux]
  | cons x xs ih =>
    intro seen
    by_cases hx : x ∈ seen
    · rw [dedupAux, if_pos hx]
      exact ih seen
    · rw [dedupAux, if_neg hx]
      refine List.nodup_cons.mpr ⟨?_, ih (x :: seen)⟩
      intro hmem
      exact ((mem_dedupAux x xs (x :: seen)).mp hmem).2 (List.mem_cons_self x seen)

/-- First-occurrence deduplication produces no duplicates. -/
theorem nodup_dedupKeepFirst (l : List String) : (dedupKeepFirst l).Nodup :=
  nodup_dedupAux l []

/-- The two primary-path error messages are distinct for all parameters. -/
theorem noData_ne_failed (u v : String) :
    ("No data found for resource: " ++ u) ≠ ("Failed to load resource: " ++ v) := by
  intro h
  have hd := congrArg String.data h
  rw [String.data_append, String.data_append] at hd
  have hN : "No data found for resource: ".data =
      'N' :: "o data found for resource: ".data := rfl
  have hF : "Failed to load resource: ".data =
      'F' :: "ailed to load resource: ".data := rfl
  rw [hN, hF, List.cons_append, List.cons_append] at hd
  injection hd with h1 _
  exact absurd h1 (by decide)

/-- Structural induction principle for coordinate trees with list
membership in the nested case. -/
theorem CoordTree.indMem (P : CoordTree → Prop)
    (hpt : ∀ c, P (.pt c))
    (harr : ∀ l, (∀ t ∈ l, P t) → P (.arr l)) :
    ∀ t, P t := by
  have H : ∀ n t, sizeOf t ≤ n → P t := by
    intro n
    induction n with
    | zero =>
      intro t ht
      cases t with
      | pt c => simp [CoordTree.pt.sizeOf_spec] at ht
      | arr l => simp [CoordTree.arr.sizeOf_spec] at ht
    | succ n ih =>
      intro t ht
      cases t with
      | pt c => exact hpt c
      | arr l =>
        refine harr l (fun u hu => ih u ?_)
        have h1 := List.sizeOf_lt_of_mem hu
        have h2 : sizeOf (CoordTree.arr l) = 1 + sizeOf l := by simp
        omega
  intro t
  exact H (sizeOf t) t le_rfl

/-- Unfolding of the transform on a nested coordinate array. -/
theorem transformCoords_arr (f : List Rat → List Rat) (l : List CoordTree) :
    transformCoords f (.arr l) = .arr (l.map (transformCoords f)) := by
  rw [transformCoords]
  simp [List.attach_map_coe]

/-- Unfolding of the leaf view on a nested coordinate array. -/
theorem leavesOf_arr (l : List CoordTree) :
    leavesOf (.arr l) = (l.map leavesOf).flatten := by
  rw [leavesOf]
  simp [List.attach_map_coe]

/-- Unfolding of the shape view on a nested coordinate array. -/
theorem shapeOf_arr (l : List CoordTree) :
    shapeOf (.arr l) = .arr (l.map shapeOf) := by
  rw [shapeOf]
  simp [List.attach_map_coe]

/- ### Claim C1 -/

/-- C1 (counterexample): the request path consisting of two slashes strips
to the non-empty remainder `/`, which starts with neither scheme, yet the
code yields the no-URI signal instead of the claimed
`base origin + "/" + r`. -/
theorem extractURIFromPath_cx :
    extractURIFromPath "https://data.matdata.eu" "//" = .noURISupplied ∧
    ResolveResult.noURISupplied ≠
      .resolved ("https://data.matdata.eu" ++ "/" ++ strDrop "//" 1) ∧
    strDrop "//" 1 ≠ "" ∧
    strStartsWith (strDrop "//" 1) "http://" = false ∧
    strStartsWith (strDrop "//" 1) "https://" = false :=
  ⟨rfl, by decide, by decide, rfl, rfl⟩

/-- C1 (amended): with `r` the request path less its first character, an
empty `r` — or an `r` that is exactly `/` — yields the no-URI signal; an
`r` beginning with `http://` or `https://` resolves to its percent-decoding;
any other non-empty `r` resolves to the configured base origin, a slash and
`r`, with no decoding. -/
theorem extractURIFromPath_spec (baseURI p : String) :
    (strDrop p 1 = "" ∨ strDrop p 1 = "/" →
      extractURIFromPath baseURI p = .noURISupplied) ∧
    (∀ s, (strStartsWith (strDrop p 1) "http://" = true ∨
           strStartsWith (strDrop p 1) "https://" = true) →
      decodeURIComponent (strDrop p 1) = some s →
      extractURIFromPath baseURI p = .resolved s) ∧
    (strDrop p 1 ≠ "" → strDrop p 1 ≠ "/" →
      strStartsWith (strDrop p 1) "http://" = false →
      strStartsWith (strDrop p 1) "https://" = false →
      extractURIFromPath baseURI p = .resolved (baseURI ++ "/" ++ strDrop p 1)) := by
  refine ⟨?_, ?_, ?_⟩
  · intro h
    simp only [extractURIFromPath]
    rw [if_pos h]
  · intro s hs hdec
    have hne : ¬(strDrop p 1 = "" ∨ strDrop p 1 = "/") := by
      rintro (h | h) <;> rw [h] at hs <;>
        rcases hs with hs | hs <;> exact absurd hs (by decide)
    have hcond : (strStartsWith (strDrop p 1) "http://" = true) ∨
        (strStartsWith (strDrop p 1) "https://" = true) := hs
    simp only [extractURIFromPath]
    rw [if_neg hne, if_pos hcond, hdec]
  · intro h1 h2 h3 h4
    have hne : ¬(strDrop p 1 = "" ∨ strDrop p 1 = "/") := by
      rintro (h | h)
      · exact h1 h
      · exact h2 h
    have hcond : ¬((strStartsWith (strDrop p 1) "http://" = true) ∨
        (strStartsWith (strDrop p 1) "https://" = true)) := by
      rintro (h | h)
      · rw [h3] at h; exact Bool.false_ne_true h
      · rw [h4] at h; exact Bool.false_ne_true h
    simp only [extractURIFromPath]
    rw [if_neg hne, if_neg hcond]

/-- C1 (witness): the amended resolution property at concrete inputs —
the bare root path, a testing-mode full URI with a percent escape, and a
production-mode local identifier. -/
theorem extractURIFromPath_spec_witness :
    extractURIFromPath "https://data.matdata.eu" "/" = .noURISupplied ∧
    extractURIFromPath "https://data.matdata.eu" "/http://example.org/a%20b" =
      .resolved "http://example.org/a b" ∧
    extractURIFromPath "https://data.matdata.eu" "/_netPointReferences_swi366_on_ne_348" =
      .resolved ("https://data.matdata.eu" ++ "/" ++
        strDrop "/_netPointReferences_swi366_on_ne_348" 1) :=
  ⟨(extractURIFromPath_spec "https://data.matdata.eu" "/").1 (Or.inl rfl),
   (extractURIFromPath_spec "https://data.matdata.eu" "/http://example.org/a%20b").2.1
     "http://example.org/a b" (Or.inl rfl) rfl,
   (extractURIFromPath_spec "https://data.matdata.eu"
     "/_netPointReferences_swi366_on_ne_348").2.2
     (by decide) (by decide) rfl rfl⟩

/- ### Claim C2 -/

/-- C2: the local link is non-null exactly when the URI carries the entity
namespace prefix; with the page origin equal to the namespace the link is
the suffix after the namespace (or `/` when that suffix is empty); with a
differing origin the link is a slash followed by the literal full URI. -/
theorem makeLocalLink_spec (entityNS origin uri : String) :
    (makeLocalLink entityNS origin uri ≠ none ↔
      strStartsWith uri entityNS = true) ∧
    (strStartsWith uri entityNS = true → origin = entityNS →
      makeLocalLink entityNS origin uri =
        some (if strDrop uri entityNS.length = "" then "/"
              else strDrop uri entityNS.length)) ∧
    (∀ rest, uri = entityNS ++ rest → origin = entityNS →
      makeLocalLink entityNS origin uri =
        some (if rest = "" then "/" else rest)) ∧
    (strStartsWith uri entityNS = true → origin ≠ entityNS →
      makeLocalLink entityNS origin uri = some ("/" ++ uri)) := by
  refine ⟨?_, ?_, ?_, ?_⟩
  · cases h : strStartsWith uri entityNS with
    | false =>
      simp only [makeLocalLink, h]
      simp
    | true =>
      simp only [makeLocalLink, h]
      by_cases ho : origin = entityNS <;> simp [ho]
  · intro h ho
    simp only [makeLocalLink, h]
    simp [ho]
  · intro rest hrest ho
    subst hrest
    simp only [makeLocalLink, strStartsWith_append]
    rw [strDrop_append]
    simp [ho]
  · intro h ho
    simp only [makeLocalLink, h]
    simp [ho]

/-- C2 (witness): the local-link rules at concrete inputs — a production
local URI, the bare namespace URI, and a testing-mode origin mismatch. -/
theorem makeLocalLink_spec_witness :
    makeLocalLink "https://data.matdata.eu" "https://data.matdata.eu"
      ("https://data.matdata.eu" ++ "/abc") = some "/abc" ∧
    makeLocalLink "https://data.matdata.eu" "https://data.matdata.eu"
      ("https://data.matdata.eu" ++ "") = some "/" ∧
    makeLocalLink "https://data.matdata.eu" "http://localhost:8080"
      "https://data.matdata.eu/abc" = some ("/" ++ "https://data.matdata.eu/abc") :=
  ⟨(makeLocalLink_spec "https://data.matdata.eu" "https://data.matdata.eu"
      ("https://data.matdata.eu" ++ "/abc")).2.2.1 "/abc" rfl rfl,
   (makeLocalLink_spec "https://data.matdata.eu" "https://data.matdata.eu"
      ("https://data.matdata.eu" ++ "")).2.2.1 "" rfl rfl,
   (makeLocalLink_spec "https://data.matdata.eu" "http://localhost:8080"
      "https://data.matdata.eu/abc").2.2.2 rfl (by decide)⟩

/- ### Claim C7 -/

/-- C7: the first prefix-map entry whose namespace is a literal prefix of
the URI produces `prefix:suffix`; with no matching namespace the URI is
returned unchanged, and shortening is therefore idempotent on strings that
match no namespace. -/
theorem shortenURI_spec (prefixMap : List (String × String)) (uri : String) :
    (∀ pre ns pfx post, prefixMap = pre ++ (ns, pfx) :: post →
      (∀ e ∈ pre, strStartsWith uri e.1 = false) →
      strStartsWith uri ns = true →
      shortenURI prefixMap uri = pfx ++ ":" ++ strDrop uri ns.length) ∧
    ((∀ e ∈ prefixMap, strStartsWith uri e.1 = false) →
      shortenURI prefixMap uri = uri) ∧
    ((∀ e ∈ prefixMap, strStartsWith uri e.1 = false) →
      shortenURI prefixMap (shortenURI prefixMap uri) = shortenURI prefixMap uri) := by
  have hnone : (∀ e ∈ prefixMap, strStartsWith uri e.1 = false) →
      shortenURI prefixMap uri = uri := by
    intro hall
    have hfind : prefixMap.find? (fun e => strStartsWith uri e.1) = none :=
      List.find?_eq_none.mpr (fun e he => by rw [hall e he]; exact Bool.false_ne_true)
    simp only [shortenURI, hfind]
  refine ⟨?_, hnone, ?_⟩
  · intro pre ns pfx post hsplit hpre hmatch
    subst hsplit
    clear hnone
    have hfind : (pre ++ (ns, pfx) :: post).find? (fun e => strStartsWith uri e.1) =
        some (ns, pfx) := by
      induction pre with
      | nil => simp [List.find?_cons, hmatch]
      | cons e es ih =>
        have he : strStartsWith uri e.1 = false := hpre e (List.mem_cons_self e es)
        rw [List.cons_append, List.find?_cons_of_neg _ (by rw [he]; exact Bool.false_ne_true)]
        exact ih (fun x hx => hpre x (List.mem_cons_of_mem e hx))
    simp only [shortenURI, hfind]
  · intro hall
    rw [hnone hall, hnone hall]

/-- C7 (witness): shortening with the rdf namespace entry at concrete
inputs — a match, a non-match left unchanged, and idempotence on the
already-shortened string. -/
theorem shortenURI_spec_witness :
    shortenURI [("http://www.w3.org/1999/02/22-rdf-syntax-ns#", "rdf")]
      "http://www.w3.org/1999/02/22-rdf-syntax-ns#type" =
      "rdf" ++ ":" ++ strDrop "http://www.w3.org/1999/02/22-rdf-syntax-ns#type"
        "http://www.w3.org/1999/02/22-rdf-syntax-ns#".length ∧
    shortenURI [("http://www.w3.org/1999/02/22-rdf-syntax-ns#", "rdf")] "rdf:type" =
      "rdf:type" ∧
    shortenURI [("http://www.w3.org/1999/02/22-rdf-syntax-ns#", "rdf")]
      (shortenURI [("http://www.w3.org/1999/02/22-rdf-syntax-ns#", "rdf")] "rdf:type") =
      shortenURI [("http://www.w3.org/1999/02/22-rdf-syntax-ns#", "rdf")] "rdf:type" :=
  ⟨(shortenURI_spec [("http://www.w3.org/1999/02/22-rdf-syntax-ns#", "rdf")]
      "http://www.w3.org/1999/02/22-rdf-syntax-ns#type").1
      [] "http://www.w3.org/1999/02/22-rdf-syntax-ns#" "rdf" []
      rfl (by intro e he; exact absurd he (List.not_mem_nil e)) rfl,
   (shortenURI_spec [("http://www.w3.org/1999/02/22-rdf-syntax-ns#", "rdf")]
      "rdf:type").2.1 (by intro e he; rw [List.mem_singleton.mp he]; rfl),
   (shortenURI_spec [("http://www.w3.org/1999/02/22-rdf-syntax-ns#", "rdf")]
      "rdf:type").2.2 (by intro e he; rw [List.mem_singleton.mp he]; rfl)⟩

/- ### Claim C5 -/

/-- C5: the property grouping draws only on triples whose subject equals
the current resource URI; each predicate key maps to the objects of its
matching triples in source order; the key row order is sorted
lexicographically by full URI string with no duplicate keys, and the keys
are exactly the predicates that occur with that subject. -/
theorem groupBySubject_spec (triples : List Triple) (uri : String) :
    (∀ p vs, (p, vs) ∈ groupBySubject triples uri →
      vs = (((triples.filter (fun t => t.subject.value == uri)).filter
        (fun t => t.predicate.value == p)).map (fun t => t.object))) ∧
    List.Sorted (· ≤ ·) ((groupBySubject triples uri).map Prod.fst) ∧
    ((groupBySubject triples uri).map Prod.fst).Nodup ∧
    (∀ p, p ∈ (groupBySubject triples uri).map Prod.fst ↔
      ∃ t ∈ triples, t.subject.value = uri ∧ t.predicate.value = p) := by
  have hkeys : (groupBySubject triples uri).map Prod.fst =
      ((dedupKeepFirst ((triples.filter (fun t => t.subject.value == uri)).map
        (fun t => t.predicate.value))).insertionSort (· ≤ ·)) := by
    simp only [groupBySubject, List.map_map]
    exact List.map_id _
  refine ⟨?_, ?_, ?_, ?_⟩
  · intro p vs hmem
    simp only [groupBySubject, List.mem_map] at hmem
    obtain ⟨q, _, heq⟩ := hmem
    obtain ⟨h1, h2⟩ := Prod.mk.injEq .. ▸ heq
    subst h1
    exact h2.symm
  · rw [hkeys]
    exact List.sorted_insertionSort _ _
  · rw [hkeys]
    exact ((List.perm_insertionSort _ _).nodup_iff).mpr (nodup_dedupKeepFirst _)
  · intro p
    rw [hkeys]
    rw [List.mem_insertionSort, mem_dedupKeepFirst, List.mem_map]
    constructor
    · rintro ⟨t, ht, hp⟩
      rcases List.mem_filter.mp ht with ⟨htt, hsub⟩
      exact ⟨t, htt, beq_iff_eq.mp hsub, hp⟩
    · rintro ⟨t, htt, hsub, hp⟩
      exact ⟨t, List.mem_filter.mpr ⟨htt, beq_iff_eq.mpr hsub⟩, hp⟩

/-- C5 (witness): two triples sharing a predicate with distinct objects
yield one group whose two values keep source order. -/
theorem groupBySubject_spec_witness :
    groupBySubject
      [⟨⟨"NamedNode", "http://ex.org/s"⟩, ⟨"NamedNode", "http://ex.org/p"⟩,
        ⟨"Literal", "o1"⟩⟩,
       ⟨⟨"NamedNode", "http://ex.org/s"⟩, ⟨"NamedNode", "http://ex.org/p"⟩,
        ⟨"Literal", "o2"⟩⟩] "http://ex.org/s" =
      [("http://ex.org/p", [⟨"Literal", "o1"⟩, ⟨"Literal", "o2"⟩])] ∧
    ([⟨"Literal", "o1"⟩, ⟨"Literal", "o2"⟩] : List RDFTerm) =
      ((([⟨⟨"NamedNode", "http://ex.org/s"⟩, ⟨"NamedNode", "http://ex.org/p"⟩,
          ⟨"Literal", "o1"⟩⟩,
         ⟨⟨"NamedNode", "http://ex.org/s"⟩, ⟨"NamedNode", "http://ex.org/p"⟩,
          ⟨"Literal", "o2"⟩⟩] : List Triple).filter
            (fun t => t.subject.value == "http://ex.org/s")).filter
            (fun t => t.predicate.value == "http://ex.org/p")).map
            (fun t => t.object) :=
  ⟨by decide,
   (groupBySubject_spec
      [⟨⟨"NamedNode", "http://ex.org/s"⟩, ⟨"NamedNode", "http://ex.org/p"⟩,
        ⟨"Literal", "o1"⟩⟩,
       ⟨⟨"NamedNode", "http://ex.org/s"⟩, ⟨"NamedNode", "http://ex.org/p"⟩,
        ⟨"Literal", "o2"⟩⟩] "http://ex.org/s").1
      "http://ex.org/p" [⟨"Literal", "o1"⟩, ⟨"Literal", "o2"⟩] (by decide)⟩

/- ### Claim C6 -/

/-- C6: the geometry pointer is the object of the first triple in source
order whose predicate is the GeoSPARQL `hasGeometry` property, and null
when no such triple exists; later matching triples are ignored. -/
theorem geometryNodeOf_spec (triples : List Triple) :
    (geometryNodeOf triples =
      (triples.find? (fun t => t.predicate.value == NS_GSP ++ "hasGeometry")).map
        (fun t => t.object.value)) ∧
    ((∀ t ∈ triples, t.predicate.value ≠ NS_GSP ++ "hasGeometry") →
      geometryNodeOf triples = none) ∧
    (∀ pre t post, triples = pre ++ t :: post →
      (∀ u ∈ pre, u.predicate.value ≠ NS_GSP ++ "hasGeometry") →
      t.predicate.value = NS_GSP ++ "hasGeometry" →
      geometryNodeOf triples = some t.object.value) := by
  have hfind : geometryNodeOf triples =
      (triples.find? (fun t => t.predicate.value == NS_GSP ++ "hasGeometry")).map
        (fun t => t.object.value) := by
    induction triples with
    | nil => rfl
    | cons t ts ih =>
      cases hb : (t.predicate.value == NS_GSP ++ "hasGeometry") with
      | true =>
        simp [geometryNodeOf, List.filter_cons, hb, List.find?_cons_of_pos _ hb]
      | false =>
        simp only [geometryNodeOf] at ih ⊢
        rw [List.filter_cons, hb, List.find?_cons_of_neg _ (by simp [hb])]
        simpa using ih
  refine ⟨hfind, ?_, ?_⟩
  · intro hall
    rw [hfind]
    have : triples.find? (fun t => t.predicate.value == NS_GSP ++ "hasGeometry") = none :=
      List.find?_eq_none.mpr (fun t ht => by simpa using hall t ht)
    rw [this]
    rfl
  · intro pre t post hsplit hpre hmatch
    subst hsplit
    rw [hfind]
    clear hfind
    have hf : (pre ++ t :: post).find?
        (fun u => u.predicate.value == NS_GSP ++ "hasGeometry") = some t := by
      induction pre with
      | nil => simp [List.find?_cons, beq_iff_eq.mpr hmatch]
      | cons e es ih =>
        have he := hpre e (List.mem_cons_self e es)
        rw [List.cons_append, List.find?_cons_of_neg _ (by simpa using he)]
        exact ih (fun x hx => hpre x (List.mem_cons_of_mem e hx))
    rw [hf]
    rfl

/-- C6 (witness): with two `hasGeometry` triples only the first object is
returned. -/
theorem geometryNodeOf_spec_witness :
    geometryNodeOf
      [⟨⟨"NamedNode", "http://ex.org/s"⟩,
        ⟨"NamedNode", "http://www.opengis.net/ont/geosparql#hasGeometry"⟩,
        ⟨"NamedNode", "http://ex.org/geomA"⟩⟩,
       ⟨⟨"NamedNode", "http://ex.org/s"⟩,
        ⟨"NamedNode", "http://www.opengis.net/ont/geosparql#hasGeometry"⟩,
        ⟨"NamedNode", "http://ex.org/geomB"⟩⟩] = some "http://ex.org/geomA" ∧
    geometryNodeOf
      [⟨⟨"NamedNode", "http://ex.org/s"⟩, ⟨"NamedNode", "http://ex.org/p"⟩,
        ⟨"Literal", "o"⟩⟩] = none :=
  ⟨(geometryNodeOf_spec
      [⟨⟨"NamedNode", "http://ex.org/s"⟩,
        ⟨"NamedNode", "http://www.opengis.net/ont/geosparql#hasGeometry"⟩,
        ⟨"NamedNode", "http://ex.org/geomA"⟩⟩,
       ⟨⟨"NamedNode", "http://ex.org/s"⟩,
        ⟨"NamedNode", "http://www.opengis.net/ont/geosparql#hasGeometry"⟩,
        ⟨"NamedNode", "http://ex.org/geomB"⟩⟩]).2.2 []
      ⟨⟨"NamedNode", "http://ex.org/s"⟩,
        ⟨"NamedNode", "http://www.opengis.net/ont/geosparql#hasGeometry"⟩,
        ⟨"NamedNode", "http://ex.org/geomA"⟩⟩ _ rfl
      (by intro u hu; exact absurd hu (List.not_mem_nil u)) (by decide),
   (geometryNodeOf_spec
      [⟨⟨"NamedNode", "http://ex.org/s"⟩, ⟨"NamedNode", "http://ex.org/p"⟩,
        ⟨"Literal", "o"⟩⟩]).2.1
      (by intro t ht; rw [List.mem_singleton.mp ht]; decide)⟩

/- ### Claim C8 -/

/-- C8: a `DESCRIBE` response that parses to zero triples yields the
distinct resource-not-found terminal state with its own message; an
HTTP-level failure yields the transport message carrying the endpoint
status text; a parser exception yields the transport-framed parse message;
and the not-found message differs from every transport/parse message. -/
theorem loadResource_outcomes (uri : String)
    (parse : String → Except String (List Triple)) (resp : HTTPResponse)
    (w r : FetchOutcome (List String)) :
    (resp.ok = true → parse resp.body = .ok [] →
      loadResource uri parse resp w r =
        { errorMessage := some ("No data found for resource: " ++ uri),
          propertiesRendered := false, mapShown := false, seeAlsoShown := false }) ∧
    (resp.ok = false →
      loadResource uri parse resp w r =
        { errorMessage := some ("Failed to load resource: " ++
            ("SPARQL query failed: " ++ resp.statusText)),
          propertiesRendered := false, mapShown := false, seeAlsoShown := false }) ∧
    (∀ e, resp.ok = true → parse resp.body = .error e →
      loadResource uri parse resp w r =
        { errorMessage := some ("Failed to load resource: " ++ e),
          propertiesRendered := false, mapShown := false, seeAlsoShown := false }) ∧
    (∀ u v, ("No data found for resource: " ++ u) ≠
      ("Failed to load resource: " ++ v)) := by
  refine ⟨?_, ?_, ?_, noData_ne_failed⟩
  · intro hok hparse
    simp only [loadResource, executeSPARQLQuery, hok, if_true, hparse]
  · intro hok
    simp only [loadResource, executeSPARQLQuery, hok, Bool.false_eq_true, if_false]
  · intro e hok hparse
    simp only [loadResource, executeSPARQLQuery, hok, if_true, hparse]

/-- C8 (witness): the three terminal outcomes at concrete inputs — an ok
response parsing to zero triples, a non-ok response, and an ok response
whose body the parser rejects — and the message distinctness at a concrete
pair. -/
theorem loadResource_outcomes_witness :
    loadResource "https://data.matdata.eu/x" (fun _ => .ok [])
      ⟨true, "OK", ""⟩ (.failure "f1") (.failure "f2") =
      { errorMessage := some ("No data found for resource: " ++
          "https://data.matdata.eu/x"),
        propertiesRendered := false, mapShown := false, seeAlsoShown := false } ∧
    loadResource "https://data.matdata.eu/x" (fun _ => .ok [])
      ⟨false, "Service Unavailable", ""⟩ (.failure "f1") (.failure "f2") =
      { errorMessage := some ("Failed to load resource: " ++
          ("SPARQL query failed: " ++ "Service Unavailable")),
        propertiesRendered := false, mapShown := false, seeAlsoShown := false } ∧
    loadResource "https://data.matdata.eu/x"
      (fun _ => .error "Unexpected \"x\" on line 1.")
      ⟨true, "OK", "malformed"⟩ (.failure "f1") (.failure "f2") =
      { errorMessage := some ("Failed to load resource: " ++
          "Unexpected \"x\" on line 1."),
        propertiesRendered := false, mapShown := false, seeAlsoShown := false } ∧
    ("No data found for resource: " ++ "https://data.matdata.eu/x") ≠
      ("Failed to load resource: " ++ "SPARQL query failed: Service Unavailable") :=
  ⟨(loadResource_outcomes "https://data.matdata.eu/x" (fun _ => .ok [])
      ⟨true, "OK", ""⟩ (.failure "f1") (.failure "f2")).1 rfl rfl,
   (loadResource_outcomes "https://data.matdata.eu/x" (fun _ => .ok [])
      ⟨false, "Service Unavailable", ""⟩ (.failure "f1") (.failure "f2")).2.1 rfl,
   (loadResource_outcomes "https://data.matdata.eu/x"
      (fun _ => .error "Unexpected \"x\" on line 1.")
      ⟨true, "OK", "malformed"⟩ (.failure "f1") (.failure "f2")).2.2.1
      "Unexpected \"x\" on line 1." rfl rfl,
   (loadResource_outcomes "https://data.matdata.eu/x" (fun _ => .ok [])
      ⟨true, "OK", ""⟩ (.failure "f1") (.failure "f2")).2.2.2
      "https://data.matdata.eu/x" "SPARQL query failed: Service Unavailable"⟩

/- ### Claim C9 -/

/-- C9: for every page load whose primary query succeeds with a non-empty
triple set, and for every pair of outcomes of the two best-effort steps,
the page error state stays clear and the property table stays rendered;
moreover a thrown failure inside the geometry check leaves the map section
absent, and a thrown failure inside the related-resources lookup leaves the
see-also section absent — each independently of the other step's outcome. -/
theorem bestEffort_isolation (uri : String)
    (parse : String → Except String (List Triple)) (resp : HTTPResponse)
    (t : Triple) (ts : List Triple)
    (wktFetch relatedFetch : FetchOutcome (List String)) :
    resp.ok = true → parse resp.body = .ok (t :: ts) →
    (loadResource uri parse resp wktFetch relatedFetch).errorMessage = none ∧
    (loadResource uri parse resp wktFetch relatedFetch).propertiesRendered = true ∧
    (∀ m, wktFetch = .failure m →
      (loadResource uri parse resp wktFetch relatedFetch).mapShown = false) ∧
    (∀ m, relatedFetch = .failure m →
      (loadResource uri parse resp wktFetch relatedFetch).seeAlsoShown = false) := by
  intro hok hparse
  have hload : loadResource uri parse resp wktFetch relatedFetch =
      { errorMessage := none, propertiesRendered := true,
        mapShown := checkForGeometry (geometryNodeOf (t :: ts)) wktFetch,
        seeAlsoShown := loadSameClassResources (typesOf (t :: ts)) relatedFetch } := by
    simp only [loadResource, executeSPARQLQuery, hok, if_true, hparse]
  refine ⟨by rw [hload], by rw [hload], ?_, ?_⟩
  · rintro m rfl
    rw [hload]
    show checkForGeometry (geometryNodeOf (t :: ts)) (.failure m) = false
    cases geometryNodeOf (t :: ts) with
    | none => rfl
    | some g => rfl
  · rintro m rfl
    rw [hload]
    show loadSameClassResources (typesOf (t :: ts)) (.failure m) = false
    cases typesOf (t :: ts) with
    | nil => rfl
    | cons x xs => rfl

/-- C9 (witness): a concrete page load whose triples carry both a type and
a geometry pointer, in the two mixed configurations — the geometry check
failing while the related lookup succeeds, and the related lookup failing
while the geometry check succeeds: in both, no page error, the table stays
rendered, and exactly the failing step's section is absent. -/
theorem bestEffort_isolation_witness :
    (loadResource "https://data.matdata.eu/x"
      (fun _ => .ok
        [⟨⟨"NamedNode", "https://data.matdata.eu/x"⟩,
          ⟨"NamedNode", "http://www.w3.org/1999/02/22-rdf-syntax-ns#type"⟩,
          ⟨"NamedNode", "http://ex.org/SomeClass"⟩⟩,
         ⟨⟨"NamedNode", "https://data.matdata.eu/x"⟩,
          ⟨"NamedNode", "http://www.opengis.net/ont/geosparql#hasGeometry"⟩,
          ⟨"NamedNode", "https://data.matdata.eu/x/geom"⟩⟩])
      ⟨true, "OK", "body"⟩ (.failure "WKT query failed")
      (.success ["https://data.matdata.eu/y"])).errorMessage = none ∧
    (loadResource "https://data.matdata.eu/x"
      (fun _ => .ok
        [⟨⟨"NamedNode", "https://data.matdata.eu/x"⟩,
          ⟨"NamedNode", "http://www.w3.org/1999/02/22-rdf-syntax-ns#type"⟩,
          ⟨"NamedNode", "http://ex.org/SomeClass"⟩⟩,
         ⟨⟨"NamedNode", "https://data.matdata.eu/x"⟩,
          ⟨"NamedNode", "http://www.opengis.net/ont/geosparql#hasGeometry"⟩,
          ⟨"NamedNode", "https://data.matdata.eu/x/geom"⟩⟩])
      ⟨true, "OK", "body"⟩ (.failure "WKT query failed")
      (.success ["https://data.matdata.eu/y"])).propertiesRendered = true ∧
    (loadResource "https://data.matdata.eu/x"
      (fun _ => .ok
        [⟨⟨"NamedNode", "https://data.matdata.eu/x"⟩,
          ⟨"NamedNode", "http://www.w3.org/1999/02/22-rdf-syntax-ns#type"⟩,
          ⟨"NamedNode", "http://ex.org/SomeClass"⟩⟩,
         ⟨⟨"NamedNode", "https://data.matdata.eu/x"⟩,
          ⟨"NamedNode", "http://www.opengis.net/ont/geosparql#hasGeometry"⟩,
          ⟨"NamedNode", "https://data.matdata.eu/x/geom"⟩⟩])
      ⟨true, "OK", "body"⟩ (.failure "WKT query failed")
      (.success ["https://data.matdata.eu/y"])).mapShown = false ∧
    (loadResource "https://data.matdata.eu/x"
      (fun _ => .ok
        [⟨⟨"NamedNode", "https://data.matdata.eu/x"⟩,
          ⟨"NamedNode", "http://www.w3.org/1999/02/22-rdf-syntax-ns#type"⟩,
          ⟨"NamedNode", "http://ex.org/SomeClass"⟩⟩,
         ⟨⟨"NamedNode", "https://data.matdata.eu/x"⟩,
          ⟨"NamedNode", "http://www.opengis.net/ont/geosparql#hasGeometry"⟩,
          ⟨"NamedNode", "https://data.matdata.eu/x/geom"⟩⟩])
      ⟨true, "OK", "body"⟩ (.success ["SRID=31370;POINT(150000 150000)"])
      (.failure "Same-class query failed")).errorMessage = none ∧
    (loadResource "https://data.matdata.eu/x"
      (fun _ => .ok
        [⟨⟨"NamedNode", "https://data.matdata.eu/x"⟩,
          ⟨"NamedNode", "http://www.w3.org/1999/02/22-rdf-syntax-ns#type"⟩,
          ⟨"NamedNode", "http://ex.org/SomeClass"⟩⟩,
         ⟨⟨"NamedNode", "https://data.matdata.eu/x"⟩,
          ⟨"NamedNode", "http://www.opengis.net/ont/geosparql#hasGeometry"⟩,
          ⟨"NamedNode", "https://data.matdata.eu/x/geom"⟩⟩])
      ⟨true, "OK", "body"⟩ (.success ["SRID=31370;POINT(150000 150000)"])
      (.failure "Same-class query failed")).seeAlsoShown = false :=
  ⟨(bestEffort_isolation "https://data.matdata.eu/x"
      (fun _ => .ok
        [⟨⟨"NamedNode", "https://data.matdata.eu/x"⟩,
          ⟨"NamedNode", "http://www.w3.org/1999/02/22-rdf-syntax-ns#type"⟩,
          ⟨"NamedNode", "http://ex.org/SomeClass"⟩⟩,
         ⟨⟨"NamedNode", "https://data.matdata.eu/x"⟩,
          ⟨"NamedNode", "http://www.opengis.net/ont/geosparql#hasGeometry"⟩,
          ⟨"NamedNode", "https://data.matdata.eu/x/geom"⟩⟩])
      ⟨true, "OK", "body"⟩ _ _ (.failure "WKT query failed")
      (.success ["https://data.matdata.eu/y"]) rfl rfl).1,
   (bestEffort_isolation "https://data.matdata.eu/x"
      (fun _ => .ok
        [⟨⟨"NamedNode", "https://data.matdata.eu/x"⟩,
          ⟨"NamedNode", "http://www.w3.org/1999/02/22-rdf-syntax-ns#type"⟩,
          ⟨"NamedNode", "http://ex.org/SomeClass"⟩⟩,
         ⟨⟨"NamedNode", "https://data.matdata.eu/x"⟩,
          ⟨"NamedNode", "http://www.opengis.net/ont/geosparql#hasGeometry"⟩,
          ⟨"NamedNode", "https://data.matdata.eu/x/geom"⟩⟩])
      ⟨true, "OK", "body"⟩ _ _ (.failure "WKT query failed")
      (.success ["https://data.matdata.eu/y"]) rfl rfl).2.1,
   (bestEffort_isolation "https://data.matdata.eu/x"
      (fun _ => .ok
        [⟨⟨"NamedNode", "https://data.matdata.eu/x"⟩,
          ⟨"NamedNode", "http://www.w3.org/1999/02/22-rdf-syntax-ns#type"⟩,
          ⟨"NamedNode", "http://ex.org/SomeClass"⟩⟩,
         ⟨⟨"NamedNode", "https://data.matdata.eu/x"⟩,
          ⟨"NamedNode", "http://www.opengis.net/ont/geosparql#hasGeometry"⟩,
          ⟨"NamedNode", "https://data.matdata.eu/x/geom"⟩⟩])
      ⟨true, "OK", "body"⟩ _ _ (.failure "WKT query failed")
      (.success ["https://data.matdata.eu/y"]) rfl rfl).2.2.1
      "WKT query failed" rfl,
   (bestEffort_isolation "https://data.matdata.eu/x"
      (fun _ => .ok
        [⟨⟨"NamedNode", "https://data.matdata.eu/x"⟩,
          ⟨"NamedNode", "http://www.w3.org/1999/02/22-rdf-syntax-ns#type"⟩,
          ⟨"NamedNode", "http://ex.org/SomeClass"⟩⟩,
         ⟨⟨"NamedNode", "https://data.matdata.eu/x"⟩,
          ⟨"NamedNode", "http://www.opengis.net/ont/geosparql#hasGeometry"⟩,
          ⟨"NamedNode", "https://data.matdata.eu/x/geom"⟩⟩])
      ⟨true, "OK", "body"⟩ _ _ (.success ["SRID=31370;POINT(150000 150000)"])
      (.failure "Same-class query failed") rfl rfl).1,
   (bestEffort_isolation "https://data.matdata.eu/x"
      (fun _ => .ok
        [⟨⟨"NamedNode", "https://data.matdata.eu/x"⟩,
          ⟨"NamedNode", "http://www.w3.org/1999/02/22-rdf-syntax-ns#type"⟩,
          ⟨"NamedNode", "http://ex.org/SomeClass"⟩⟩,
         ⟨⟨"NamedNode", "https://data.matdata.eu/x"⟩,
          ⟨"NamedNode", "http://www.opengis.net/ont/geosparql#hasGeometry"⟩,
          ⟨"NamedNode", "https://data.matdata.eu/x/geom"⟩⟩])
      ⟨true, "OK", "body"⟩ _ _ (.success ["SRID=31370;POINT(150000 150000)"])
      (.failure "Same-class query failed") rfl rfl).2.2.2
      "Same-class query failed" rfl⟩

/- ### Claim C3 -/

/-- C3 (counterexample): a literal matching the EWKT form whose remainder
also matches the OGC CRS-URI form does not keep the first match — the OGC
SRID overwrites the EWKT SRID. -/
theorem parseWKT_cx :
    matchEWKT (jsTrim
      "SRID=4326;<http://www.opengis.net/def/crs/EPSG/0/31370> POINT(1 2)") =
      some (4326, "<http://www.opengis.net/def/crs/EPSG/0/31370> POINT(1 2)") ∧
    (parseWKT
      "SRID=4326;<http://www.opengis.net/def/crs/EPSG/0/31370> POINT(1 2)").2 =
      some 31370 ∧
    (some 31370 : Option Nat) ≠ some 4326 :=
  ⟨rfl, rfl, by decide⟩

/-- C3 (amended): format detection is sequential rather than
first-match-wins — the EWKT regex is applied first and the OGC CRS regex is
then applied to whatever remains, so when both match the OGC SRID wins;
with neither matching the SRID is null; the two concrete example literals
parse as stated in the claim. -/
theorem parseWKT_spec :
    (∀ lit n r, matchEWKT (jsTrim lit) = some (n, r) → matchOGC r = none →
      parseWKT lit = (wktToGeoJSON r, some n)) ∧
    (∀ lit n r m q, matchEWKT (jsTrim lit) = some (n, r) →
      matchOGC r = some (m, q) →
      parseWKT lit = (wktToGeoJSON q, some m)) ∧
    (∀ lit n r, matchEWKT (jsTrim lit) = none →
      matchOGC (jsTrim lit) = some (n, r) →
      parseWKT lit = (wktToGeoJSON r, some n)) ∧
    (∀ lit, matchEWKT (jsTrim lit) = none → matchOGC (jsTrim lit) = none →
      parseWKT lit = (wktToGeoJSON (jsTrim lit), none)) ∧
    parseWKT "SRID=31370;POINT(150000 150000)" =
      (some (.geometry "Point" (.pt [150000, 150000])), some 31370) ∧
    parseWKT "POINT(4.35 50.85)" =
      (some (.geometry "Point" (.pt [4.35, 50.85])), none) := by
  refine ⟨?_, ?_, ?_, ?_, rfl, ?_⟩
  · intro lit n r h1 h2
    simp [parseWKT, h1, h2]
  · intro lit n r m q h1 h2
    simp [parseWKT, h1, h2]
  · intro lit n r h1 h2
    simp [parseWKT, h1, h2]
  · intro lit h1 h2
    simp [parseWKT, h1, h2]
  · have h1 : (4.35 : Rat) = 4 + 35 / 10 ^ 2 := by norm_num
    have h2 : (50.85 : Rat) = 50 + 85 / 10 ^ 2 := by norm_num
    rw [h1, h2]
    rfl

/-- C3 (witness): the sequential-detection property applied at concrete
literals for the EWKT-only, OGC-only and plain-WKT branches. -/
theorem parseWKT_spec_witness :
    parseWKT "SRID=3857;POINT(0 0)" = (wktToGeoJSON "POINT(0 0)", some 3857) ∧
    parseWKT "<http://www.opengis.net/def/crs/EPSG/0/4258> POINT(1 1)" =
      (wktToGeoJSON "POINT(1 1)", some 4258) ∧
    parseWKT "LINESTRING(0 0, 1 1)" =
      (wktToGeoJSON (jsTrim "LINESTRING(0 0, 1 1)"), none) :=
  ⟨parseWKT_spec.1 "SRID=3857;POINT(0 0)" 3857 "POINT(0 0)" rfl rfl,
   parseWKT_spec.2.2.1 "<http://www.opengis.net/def/crs/EPSG/0/4258> POINT(1 1)"
     4258 "POINT(1 1)" rfl rfl,
   parseWKT_spec.2.2.2.1 "LINESTRING(0 0, 1 1)" rfl rfl⟩

/- ### Claim C4 -/

/-- C4 (counterexample): an EWKT literal with SRID `0` parses to a non-null
SRID that differs from 4326, yet the JavaScript condition `srid && srid !==
4326` is falsy at zero, so no transformation is performed and the point is
rendered untransformed. -/
theorem shouldTransform_cx :
    (parseWKT "SRID=0;POINT(1 2)").2 = some 0 ∧
    shouldTransform (some 0) = false ∧
    (some 0 : Option Nat) ≠ none ∧
    (some 0 : Option Nat) ≠ some 4326 ∧
    initializeMapGeometry (fun _ c => c.map (fun x => x + 1)) "SRID=0;POINT(1 2)" =
      some (.geometry "Point" (.pt [1, 2])) :=
  ⟨rfl, rfl, by decide, by decide, rfl⟩

/-- C4 (amended): coordinate transformation is initiated exactly when the
parsed SRID is non-null, non-zero and differs from 4326 (a zero SRID is
falsy in JavaScript and treated as absent); when a geometry carrying a
coordinates tree is transformed, every coordinate leaf is passed through
the projection while the nesting structure of the tree is preserved
exactly. -/
theorem reprojection_spec :
    (∀ srid, shouldTransform srid = true ↔
      ∃ n, srid = some n ∧ n ≠ 0 ∧ n ≠ 4326) ∧
    (∀ f ty c, transformGeoJSON f (some (.geometry ty c)) =
      some (.geometry ty (transformCoords f c))) ∧
    (∀ f t, shapeOf (transformCoords f t) = shapeOf t) ∧
    (∀ f t, leavesOf (transformCoords f t) = (leavesOf t).map f) := by
  refine ⟨?_, fun f ty c => rfl, ?_, ?_⟩
  · intro srid
    cases srid with
    | none => simp [shouldTransform]
    | some n => simp [shouldTransform]
  · intro f t
    induction t using CoordTree.indMem with
    | hpt c => simp [transformCoords, shapeOf]
    | harr l ih =>
      rw [transformCoords_arr, shapeOf_arr, shapeOf_arr, List.map_map]
      congr 1
      exact List.map_congr_left (fun t ht => ih t ht)
  · intro f t
    induction t using CoordTree.indMem with
    | hpt c => simp [transformCoords, leavesOf]
    | harr l ih =>
      rw [transformCoords_arr, leavesOf_arr, leavesOf_arr, List.map_map,
        List.map_flatten, List.map_map]
      congr 1
      exact List.map_congr_left (fun t ht => ih t ht)

/- ### Claim C10 -/

/-- C10: the coordinate transform leaves any geometry object without a
top-level coordinates field entirely unchanged — in particular a
GeometryCollection, which carries `geometries` instead — so a collection
with a non-null SRID different from 4326 is rendered with its original,
untransformed coordinates even though the transform condition holds. -/
theorem transformGeoJSON_frame_spec :
    (∀ f gs, transformGeoJSON f (some (.geometryCollection gs)) =
      some (.geometryCollection gs)) ∧
    (∀ f, transformGeoJSON f none = none) ∧
    shouldTransform (some 31370) = true ∧
    (∀ f, initializeMapGeometry f "SRID=31370;GEOMETRYCOLLECTION(POINT(1 2))" =
      some (.geometryCollection [.geometry "Point" (.pt [1, 2])])) :=
  ⟨fun _ _ => rfl, fun _ => rfl, rfl, fun _ => rfl⟩
